import Mathlib

set_option linter.unusedVariables false

/-! Verification of the configuration validation and derivation subsystem of the
react-starter repository: the infrastructure configuration utilities
(src/infrastructure/utils/config.ts: `configSchema`, `getConfig`, `getTags`,
`getEnvironmentConfig`) and the application configuration parser
(src/src/common/utils/config.ts: `configSchema`, `parseConfig`).

Raw environments are modelled as flat association lists. The schema library's
(Zod's) field validators used by the two schemas are embedded directly: enum
membership, string acceptance, iso date/time/datetime lexical grammars, the
absolute-URL check, and the non-coercing number/int/nonnegative checks. Object
parsing validates every declared field, accumulates every issue, and produces
the typed record only when no field failed, exactly as the library does. -/

/-- A single validation issue: the field path and its message, mirroring one
entry of the schema library's issue list (`e.path.join('.')` together with
`e.message`). -/
structure Issue where
  path : String
  message : String
deriving DecidableEq, Repr

/-- Format one issue the way both catch blocks do: `path: message`. -/
def fmtIssue (i : Issue) : String := i.path ++ ": " ++ i.message

/-- JavaScript `Array.prototype.join` with a separator, as applied to the
formatted issue list. -/
def joinWith (sep : String) : List String → String
  | [] => ""
  | [s] => s
  | s :: t :: rest => s ++ sep ++ joinWith sep (t :: rest)

/-- Read of one key of a flat environment object (`process.env[key]` or
`import.meta.env[key]`); the first binding of the key wins. -/
def envLookup {α : Type} (env : List (String × α)) (k : String) : Option α :=
  (env.find? (fun p => p.1 == k)).map Prod.snd

/-- The issue list of one field's validation result (empty on success). -/
def issuesOf {α : Type} : Except (List Issue) α → List Issue
  | Except.ok _ => []
  | Except.error es => es

/-- The value of a successful field result; the fallback is never consulted on
the success path of an object parse. -/
def okD {α : Type} (d : α) : Except (List Issue) α → α
  | Except.ok a => a
  | Except.error _ => d

/-- Decimal digit test on a character. -/
def isDig (c : Char) : Bool := 48 ≤ c.toNat && c.toNat ≤ 57

/-- Numeric value of a decimal digit character. -/
def digVal (c : Char) : Nat := c.toNat - 48

/-- Gregorian leap-year rule, as encoded in the schema library's calendar-date
grammar. -/
def isLeap (y : Nat) : Bool := y % 4 = 0 && (y % 100 ≠ 0 || y % 400 = 0)

/-- Number of days of a month of a given year. -/
def daysInMonth (y m : Nat) : Nat :=
  if m = 2 then (if isLeap y then 29 else 28)
  else if m = 4 || m = 6 || m = 9 || m = 11 then 30
  else 31

/-- Calendar validity of the `YYYY-MM-DD` component characters. -/
def dateOk (y1 y2 y3 y4 m1 m2 d1 d2 : Char) : Bool :=
  isDig y1 && isDig y2 && isDig y3 && isDig y4 &&
  isDig m1 && isDig m2 && isDig d1 && isDig d2 &&
  (let y := ((digVal y1 * 10 + digVal y2) * 10 + digVal y3) * 10 + digVal y4
   let m := digVal m1 * 10 + digVal m2
   let d := digVal d1 * 10 + digVal d2
   1 ≤ m && m ≤ 12 && 1 ≤ d && d ≤ daysInMonth y m)

/-- The strict ISO calendar-date grammar checked by the schema library's
`iso.date()` validator. -/
def isIsoDate (s : String) : Bool :=
  match s.data with
  | [y1, y2, y3, y4, '-', m1, m2, '-', d1, d2] => dateOk y1 y2 y3 y4 m1 m2 d1 d2
  | _ => false

/-- Valid `HH` hour pair (00 through 23). -/
def hourOk (h1 h2 : Char) : Bool :=
  ((h1 = '0' || h1 = '1') && isDig h2) ||
  (h1 = '2' && (h2 = '0' || h2 = '1' || h2 = '2' || h2 = '3'))

/-- Valid minute or second pair (00 through 59). -/
def minSecOk (m1 m2 : Char) : Bool :=
  (m1 = '0' || m1 = '1' || m1 = '2' || m1 = '3' || m1 = '4' || m1 = '5') && isDig m2

/-- Optional fractional-second tail: empty, or a dot followed by at least one
digit. -/
def fracOk : List Char → Bool
  | [] => true
  | '.' :: ds => !ds.isEmpty && ds.all isDig
  | _ => false

/-- Optional `:SS(.fraction)?` tail of a time of day. -/
def secondsOk : List Char → Bool
  | [] => true
  | ':' :: s1 :: s2 :: rest => minSecOk s1 s2 && fracOk rest
  | _ => false

/-- The ISO time-of-day grammar checked by the schema library's `iso.time()`
validator. -/
def isIsoTime (s : String) : Bool :=
  match s.data with
  | h1 :: h2 :: ':' :: m1 :: m2 :: rest => hourOk h1 h2 && minSecOk m1 m2 && secondsOk rest
  | _ => false

/-- A run of digits terminated by the trailing `Z` of a UTC timestamp. -/
def digitsZ : List Char → Bool
  | ['Z'] => true
  | c :: rest => isDig c && digitsZ rest
  | [] => false

/-- Fractional-second tail then the mandatory trailing `Z`. -/
def fracZOk : List Char → Bool
  | ['Z'] => true
  | '.' :: d :: rest => isDig d && digitsZ rest
  | _ => false

/-- Optional seconds then the trailing `Z`. -/
def secondsZOk : List Char → Bool
  | ['Z'] => true
  | ':' :: s1 :: s2 :: rest => minSecOk s1 s2 && fracZOk rest
  | _ => false

/-- The ISO UTC datetime grammar (`date` `T` `time` `Z`) checked by the schema
library's `iso.datetime()` validator with its default settings. -/
def isIsoDateTime (s : String) : Bool :=
  match s.data with
  | y1 :: y2 :: y3 :: y4 :: '-' :: m1 :: m2 :: '-' :: d1 :: d2 :: 'T' ::
      h1 :: h2 :: ':' :: n1 :: n2 :: rest =>
    dateOk y1 y2 y3 y4 m1 m2 d1 d2 && hourOk h1 h2 && minSecOk n1 n2 && secondsZOk rest
  | _ => false

/-- Characters allowed in a URL scheme after the initial letter. -/
def schemeChar (c : Char) : Bool := c.isAlpha || isDig c || c = '+' || c = '-' || c = '.'

/-- Nonempty authority: at least one character before the next delimiter. -/
def hostStarts : List Char → Bool
  | [] => false
  | c :: _ => !(c = '/' || c = '?' || c = '#')

/-- Consume scheme characters up to the literal `://`, then require a nonempty
authority. -/
def afterScheme : List Char → Bool
  | ':' :: '/' :: '/' :: rest => hostStarts rest
  | c :: rest => schemeChar c && afterScheme rest
  | [] => false

/-- Models the absolute-URL validity check of the schema library's `url()`
validator: an alphabetic-initial scheme, the literal `://`, and a nonempty
authority. -/
def isValidUrl (s : String) : Bool :=
  match s.data with
  | c :: rest => c.isAlpha && afterScheme rest
  | [] => false

/-- Does the pattern occur at the start of the character list. -/
def strStarts (p s : String) : Bool := p.data.isPrefixOf s.data

/-- Substring occurrence over character lists. -/
def hasSubstrL (p : List Char) : List Char → Bool
  | [] => p.isEmpty
  | c :: t => p.isPrefixOf (c :: t) || hasSubstrL p t

/-- Substring occurrence test, used to state message-content properties. -/
def containsSub (pat s : String) : Bool := hasSubstrL pat.data s.data

namespace Infra

/-- The `CDK_ENV` enumeration of `configSchema`:
`z.enum(['dev', 'qa', 'prd'], 'CDK_ENV must be one of: dev, qa, prd')`. -/
inductive CdkEnv
  | dev
  | qa
  | prd
deriving DecidableEq, Repr

/-- The raw string of a `CdkEnv` member. -/
def CdkEnv.code : CdkEnv → String
  | CdkEnv.dev => "dev"
  | CdkEnv.qa => "qa"
  | CdkEnv.prd => "prd"

/-- Validated CDK configuration (type `Config` of
src/infrastructure/utils/config.ts), one field per `configSchema` entry. -/
structure Config where
  CDK_APP_NAME : String
  CDK_ENV : CdkEnv
  CDK_ACCOUNT : Option String
  CDK_REGION : Option String
  CDK_OU : String
  CDK_OWNER : String
  CDK_ASSET_PATH : String
  CDK_DOMAIN_NAME : Option String
  CDK_CERTIFICATE_ARN : Option String
  CDK_HOSTED_ZONE_ID : Option String
  CDK_HOSTED_ZONE_NAME : Option String
  CDK_STORYBOOK_ASSET_PATH : String
  CDK_STORYBOOK_DOMAIN_NAME : Option String
  CDK_STORYBOOK_CERTIFICATE_ARN : Option String
  CDK_STORYBOOK_HOSTED_ZONE_ID : Option String
  CDK_STORYBOOK_HOSTED_ZONE_NAME : Option String
deriving DecidableEq, Repr

/-- The issue the `CDK_ENV` enum raises, with the custom error text supplied in
the schema. -/
def cdkEnvIssue : Issue := ⟨"CDK_ENV", "CDK_ENV must be one of: dev, qa, prd"⟩

/-- Validation of the required `CDK_ENV` field: an exact member of the enum;
absence or any other value raises the custom issue. -/
def parseCdkEnv : Option String → Except Issue CdkEnv
  | none => Except.error cdkEnvIssue
  | some s =>
    if s = "dev" then Except.ok CdkEnv.dev
    else if s = "qa" then Except.ok CdkEnv.qa
    else if s = "prd" then Except.ok CdkEnv.prd
    else Except.error cdkEnvIssue

/-- `configSchema.parse` over a raw `process.env`: every value of the
environment is already a string, so the plain-string fields always validate
(defaults substituted when absent, optional fields kept as options), and only
`CDK_ENV` can contribute an issue. Unrecognised keys are never consulted. -/
def schemaParse (env : List (String × String)) : Except (List Issue) Config :=
  match parseCdkEnv (envLookup env "CDK_ENV") with
  | Except.error i => Except.error [i]
  | Except.ok e =>
    Except.ok
      { CDK_APP_NAME := (envLookup env "CDK_APP_NAME").getD "react-starter"
        CDK_ENV := e
        CDK_ACCOUNT := envLookup env "CDK_ACCOUNT"
        CDK_REGION := envLookup env "CDK_REGION"
        CDK_OU := (envLookup env "CDK_OU").getD "unknown"
        CDK_OWNER := (envLookup env "CDK_OWNER").getD "unknown"
        CDK_ASSET_PATH := (envLookup env "CDK_ASSET_PATH").getD "../dist"
        CDK_DOMAIN_NAME := envLookup env "CDK_DOMAIN_NAME"
        CDK_CERTIFICATE_ARN := envLookup env "CDK_CERTIFICATE_ARN"
        CDK_HOSTED_ZONE_ID := envLookup env "CDK_HOSTED_ZONE_ID"
        CDK_HOSTED_ZONE_NAME := envLookup env "CDK_HOSTED_ZONE_NAME"
        CDK_STORYBOOK_ASSET_PATH := (envLookup env "CDK_STORYBOOK_ASSET_PATH").getD "../storybook-static"
        CDK_STORYBOOK_DOMAIN_NAME := envLookup env "CDK_STORYBOOK_DOMAIN_NAME"
        CDK_STORYBOOK_CERTIFICATE_ARN := envLookup env "CDK_STORYBOOK_CERTIFICATE_ARN"
        CDK_STORYBOOK_HOSTED_ZONE_ID := envLookup env "CDK_STORYBOOK_HOSTED_ZONE_ID"
        CDK_STORYBOOK_HOSTED_ZONE_NAME := envLookup env "CDK_STORYBOOK_HOSTED_ZONE_NAME" }

/-- The message built in `getConfig`'s catch block:
the literal prefix plus the comma-joined `path: message` entries. -/
def errorMessage (issues : List Issue) : String :=
  "CDK configuration validation failed: " ++ joinWith ", " (issues.map fmtIssue)

/-- `getConfig`: parse the environment against `configSchema`, surfacing a
failure as the thrown `Error`'s message. -/
def getConfig (env : List (String × String)) : Except String Config :=
  match schemaParse env with
  | Except.ok c => Except.ok c
  | Except.error issues => Except.error (errorMessage issues)

/-- `getTags`: the four fixed resource tags copied verbatim from the validated
configuration. -/
def getTags (c : Config) : List (String × String) :=
  [("App", c.CDK_APP_NAME), ("Env", c.CDK_ENV.code), ("OU", c.CDK_OU), ("Owner", c.CDK_OWNER)]

/-- JavaScript `a || b` over possibly-absent strings: the left operand wins
unless it is absent or empty (falsy). -/
def jsOr (a b : Option String) : Option String :=
  if a.getD "" = "" then b else a

/-- JavaScript truthiness of a possibly-absent string. -/
def truthy : Option String → Bool
  | none => false
  | some s => !(s == "")

/-- The resolved environment pair returned by `getEnvironmentConfig`. -/
structure EnvConfig where
  account : String
  region : String
deriving DecidableEq, Repr

/-- `getEnvironmentConfig`: `CDK_ACCOUNT`/`CDK_REGION` with fallback to the
platform defaults `CDK_DEFAULT_ACCOUNT`/`CDK_DEFAULT_REGION` (the two
`process.env` reads are passed here as explicit inputs); the pair is returned
only when both resolved values are truthy, otherwise the result is absent. -/
def getEnvironmentConfig (c : Config) (defaultAccount defaultRegion : Option String) :
    Option EnvConfig :=
  let account := jsOr c.CDK_ACCOUNT defaultAccount
  let region := jsOr c.CDK_REGION defaultRegion
  if truthy account && truthy region then some ⟨account.getD "", region.getD ""⟩
  else none

end Infra

namespace App

/-- A raw value of the application environment object: a JavaScript string or
number. A number is carried as its integer part together with a flag marking a
nonzero fractional part, which is all the schema's int/nonnegative checks
observe. -/
inductive Value
  | str (s : String)
  | num (n : Int) (frac : Bool)
deriving DecidableEq, Repr

/-- `z.string()`: any string is accepted; a number or a missing value is an
invalid type. -/
def vStr (key : String) : Option Value → Except (List Issue) String
  | some (Value.str s) => Except.ok s
  | some (Value.num _ _) => Except.error [⟨key, "Invalid input: expected string, received number"⟩]
  | none => Except.error [⟨key, "Invalid input: expected string, received undefined"⟩]

/-- A required string checked against a lexical format predicate (the iso
date/time/datetime and url validators). -/
def vFormat (key : String) (fOk : String → Bool) (msg : String) :
    Option Value → Except (List Issue) String
  | some (Value.str s) => if fOk s then Except.ok s else Except.error [⟨key, msg⟩]
  | some (Value.num _ _) => Except.error [⟨key, "Invalid input: expected string, received number"⟩]
  | none => Except.error [⟨key, "Invalid input: expected string, received undefined"⟩]

/-- `z.number().int().nonnegative()`: the value must already be a number — the
schema requests no coercion — and the int and nonnegative checks each
contribute an issue when violated. -/
def vNonnegInt (key : String) : Option Value → Except (List Issue) Int
  | some (Value.num n f) =>
    let issues :=
      (if f then [(⟨key, "Invalid input: expected int, received number"⟩ : Issue)] else []) ++
      (if n < 0 then [(⟨key, "Too small: expected number to be >=0"⟩ : Issue)] else [])
    if issues.isEmpty then Except.ok n else Except.error issues
  | some (Value.str _) => Except.error [⟨key, "Invalid input: expected number, received string"⟩]
  | none => Except.error [⟨key, "Invalid input: expected number, received undefined"⟩]

/-- The same check with `.default(d)`: an absent value yields the default. -/
def vNonnegIntDefault (key : String) (d : Int) : Option Value → Except (List Issue) Int
  | none => Except.ok d
  | some v => vNonnegInt key (some v)

/-- Validated application configuration (type `Config` of
src/src/common/utils/config.ts), one field per `configSchema` entry. -/
structure Config where
  VITE_BUILD_DATE : String
  VITE_BUILD_TIME : String
  VITE_BUILD_TS : String
  VITE_BUILD_COMMIT_SHA : String
  VITE_BUILD_ENV_CODE : String
  VITE_BUILD_WORKFLOW_NAME : String
  VITE_BUILD_WORKFLOW_RUN_NUMBER : Int
  VITE_BUILD_WORKFLOW_RUN_ATTEMPT : Int
  VITE_BASE_URL_API : String
  VITE_TOAST_AUTO_DISMISS_MILLIS : Int
deriving DecidableEq, Repr

/-- Validation result of the `VITE_BUILD_DATE` field (`z.iso.date()`). -/
def rDate (env : List (String × Value)) : Except (List Issue) String :=
  vFormat "VITE_BUILD_DATE" isIsoDate "Invalid ISO date" (envLookup env "VITE_BUILD_DATE")

/-- Validation result of the `VITE_BUILD_TIME` field (`z.iso.time()`). -/
def rTime (env : List (String × Value)) : Except (List Issue) String :=
  vFormat "VITE_BUILD_TIME" isIsoTime "Invalid ISO time" (envLookup env "VITE_BUILD_TIME")

/-- Validation result of the `VITE_BUILD_TS` field (`z.iso.datetime()`). -/
def rTs (env : List (String × Value)) : Except (List Issue) String :=
  vFormat "VITE_BUILD_TS" isIsoDateTime "Invalid ISO datetime" (envLookup env "VITE_BUILD_TS")

/-- Validation result of the `VITE_BUILD_COMMIT_SHA` field (`z.string()`). -/
def rSha (env : List (String × Value)) : Except (List Issue) String :=
  vStr "VITE_BUILD_COMMIT_SHA" (envLookup env "VITE_BUILD_COMMIT_SHA")

/-- Validation result of the `VITE_BUILD_ENV_CODE` field (`z.string()`). -/
def rEnvCode (env : List (String × Value)) : Except (List Issue) String :=
  vStr "VITE_BUILD_ENV_CODE" (envLookup env "VITE_BUILD_ENV_CODE")

/-- Validation result of the `VITE_BUILD_WORKFLOW_NAME` field (`z.string()`). -/
def rWfName (env : List (String × Value)) : Except (List Issue) String :=
  vStr "VITE_BUILD_WORKFLOW_NAME" (envLookup env "VITE_BUILD_WORKFLOW_NAME")

/-- Validation result of the `VITE_BUILD_WORKFLOW_RUN_NUMBER` field
(`z.number().int().nonnegative()`). -/
def rRunNum (env : List (String × Value)) : Except (List Issue) Int :=
  vNonnegInt "VITE_BUILD_WORKFLOW_RUN_NUMBER" (envLookup env "VITE_BUILD_WORKFLOW_RUN_NUMBER")

/-- Validation result of the `VITE_BUILD_WORKFLOW_RUN_ATTEMPT` field
(`z.number().int().nonnegative()`). -/
def rRunAtt (env : List (String × Value)) : Except (List Issue) Int :=
  vNonnegInt "VITE_BUILD_WORKFLOW_RUN_ATTEMPT" (envLookup env "VITE_BUILD_WORKFLOW_RUN_ATTEMPT")

/-- Validation result of the `VITE_BASE_URL_API` field (`z.url()`). -/
def rBaseUrl (env : List (String × Value)) : Except (List Issue) String :=
  vFormat "VITE_BASE_URL_API" isValidUrl "Invalid URL" (envLookup env "VITE_BASE_URL_API")

/-- Validation result of the `VITE_TOAST_AUTO_DISMISS_MILLIS` field
(`z.number().int().nonnegative().default(5000)`). -/
def rToast (env : List (String × Value)) : Except (List Issue) Int :=
  vNonnegIntDefault "VITE_TOAST_AUTO_DISMISS_MILLIS" 5000
    (envLookup env "VITE_TOAST_AUTO_DISMISS_MILLIS")

/-- Every issue of one parse pass over the application schema, in schema
declaration order. -/
def allIssues (env : List (String × Value)) : List Issue :=
  issuesOf (rDate env) ++ issuesOf (rTime env) ++ issuesOf (rTs env) ++
  issuesOf (rSha env) ++ issuesOf (rEnvCode env) ++ issuesOf (rWfName env) ++
  issuesOf (rRunNum env) ++ issuesOf (rRunAtt env) ++ issuesOf (rBaseUrl env) ++
  issuesOf (rToast env)

/-- `configSchema.parse` of the application schema: validate every declared
field, collect every issue; the typed object is produced only when no field
failed, and unrecognised keys are never consulted. -/
def parseConfig (env : List (String × Value)) : Except (List Issue) Config :=
  if allIssues env = [] then
    Except.ok
      { VITE_BUILD_DATE := okD "" (rDate env)
        VITE_BUILD_TIME := okD "" (rTime env)
        VITE_BUILD_TS := okD "" (rTs env)
        VITE_BUILD_COMMIT_SHA := okD "" (rSha env)
        VITE_BUILD_ENV_CODE := okD "" (rEnvCode env)
        VITE_BUILD_WORKFLOW_NAME := okD "" (rWfName env)
        VITE_BUILD_WORKFLOW_RUN_NUMBER := okD 0 (rRunNum env)
        VITE_BUILD_WORKFLOW_RUN_ATTEMPT := okD 0 (rRunAtt env)
        VITE_BASE_URL_API := okD "" (rBaseUrl env)
        VITE_TOAST_AUTO_DISMISS_MILLIS := okD 0 (rToast env) }
  else Except.error (allIssues env)

/-- The message built in the application `parseConfig`'s catch block: its
literal prefix plus the semicolon-joined `path: message` entries. -/
def errorMessage (issues : List Issue) : String :=
  "Invalid configuration. Details: " ++ joinWith "; " (issues.map fmtIssue)

/-- The application parse as surfaced to the caller: a failure becomes the
thrown `Error`'s message. -/
def parseConfigE (env : List (String × Value)) : Except String Config :=
  match parseConfig env with
  | Except.ok c => Except.ok c
  | Except.error issues => Except.error (errorMessage issues)

end App

/-- The sixteen keys of the infrastructure `configSchema`, in declaration
order. -/
def infraKeys : List String :=
  ["CDK_APP_NAME", "CDK_ENV", "CDK_ACCOUNT", "CDK_REGION", "CDK_OU", "CDK_OWNER",
   "CDK_ASSET_PATH", "CDK_DOMAIN_NAME", "CDK_CERTIFICATE_ARN", "CDK_HOSTED_ZONE_ID",
   "CDK_HOSTED_ZONE_NAME", "CDK_STORYBOOK_ASSET_PATH", "CDK_STORYBOOK_DOMAIN_NAME",
   "CDK_STORYBOOK_CERTIFICATE_ARN", "CDK_STORYBOOK_HOSTED_ZONE_ID",
   "CDK_STORYBOOK_HOSTED_ZONE_NAME"]

/-- The ten keys of the application `configSchema`, in declaration order. -/
def appKeys : List String :=
  ["VITE_BUILD_DATE", "VITE_BUILD_TIME", "VITE_BUILD_TS", "VITE_BUILD_COMMIT_SHA",
   "VITE_BUILD_ENV_CODE", "VITE_BUILD_WORKFLOW_NAME", "VITE_BUILD_WORKFLOW_RUN_NUMBER",
   "VITE_BUILD_WORKFLOW_RUN_ATTEMPT", "VITE_BASE_URL_API", "VITE_TOAST_AUTO_DISMISS_MILLIS"]

/-- A fully defaulted dev configuration, used to instantiate theorems. -/
def devConfig : Infra.Config :=
  { CDK_APP_NAME := "react-starter"
    CDK_ENV := Infra.CdkEnv.dev
    CDK_ACCOUNT := none
    CDK_REGION := none
    CDK_OU := "unknown"
    CDK_OWNER := "unknown"
    CDK_ASSET_PATH := "../dist"
    CDK_DOMAIN_NAME := none
    CDK_CERTIFICATE_ARN := none
    CDK_HOSTED_ZONE_ID := none
    CDK_HOSTED_ZONE_NAME := none
    CDK_STORYBOOK_ASSET_PATH := "../storybook-static"
    CDK_STORYBOOK_DOMAIN_NAME := none
    CDK_STORYBOOK_CERTIFICATE_ARN := none
    CDK_STORYBOOK_HOSTED_ZONE_ID := none
    CDK_STORYBOOK_HOSTED_ZONE_NAME := none }

/-- The dev configuration with explicit account and region. -/
def explicitConfig : Infra.Config :=
  { devConfig with CDK_ACCOUNT := some "123456789012", CDK_REGION := some "us-west-2" }

/-- The environment object of the repository's own coercion test, exactly as
`import.meta.env` would supply it: every value a string. -/
def coercionTestEnv : List (String × App.Value) :=
  [("VITE_BUILD_DATE", App.Value.str "2026-02-11"),
   ("VITE_BUILD_TIME", App.Value.str "14:30:00"),
   ("VITE_BUILD_TS", App.Value.str "2026-02-11T14:30:00Z"),
   ("VITE_BUILD_COMMIT_SHA", App.Value.str "abc123def456"),
   ("VITE_BUILD_ENV_CODE", App.Value.str "dev"),
   ("VITE_BUILD_WORKFLOW_NAME", App.Value.str "CI/CD Pipeline"),
   ("VITE_BUILD_WORKFLOW_RUN_NUMBER", App.Value.str "99"),
   ("VITE_BUILD_WORKFLOW_RUN_ATTEMPT", App.Value.str "3"),
   ("VITE_BASE_URL_API", App.Value.str "https://api.example.com"),
   ("VITE_TOAST_AUTO_DISMISS_MILLIS", App.Value.str "3000")]

/-- The same environment with the three numeric fields carried as numbers, as
the repository's test suite constructs it. -/
def numericTestEnv : List (String × App.Value) :=
  [("VITE_BUILD_DATE", App.Value.str "2026-02-11"),
   ("VITE_BUILD_TIME", App.Value.str "14:30:00"),
   ("VITE_BUILD_TS", App.Value.str "2026-02-11T14:30:00Z"),
   ("VITE_BUILD_COMMIT_SHA", App.Value.str "abc123def456"),
   ("VITE_BUILD_ENV_CODE", App.Value.str "dev"),
   ("VITE_BUILD_WORKFLOW_NAME", App.Value.str "CI/CD Pipeline"),
   ("VITE_BUILD_WORKFLOW_RUN_NUMBER", App.Value.num 99 false),
   ("VITE_BUILD_WORKFLOW_RUN_ATTEMPT", App.Value.num 3 false),
   ("VITE_BASE_URL_API", App.Value.str "https://api.example.com"),
   ("VITE_TOAST_AUTO_DISMISS_MILLIS", App.Value.num 3000 false)]

/-- The application parse depends only on the values the environment holds at
the ten schema keys. -/
theorem app_parse_ext (e1 e2 : List (String × App.Value))
    (h : ∀ k ∈ appKeys, envLookup e1 k = envLookup e2 k) :
    App.parseConfig e1 = App.parseConfig e2 := by
  have h1 := h "VITE_BUILD_DATE" (by simp [appKeys])
  have h2 := h "VITE_BUILD_TIME" (by simp [appKeys])
  have h3 := h "VITE_BUILD_TS" (by simp [appKeys])
  have h4 := h "VITE_BUILD_COMMIT_SHA" (by simp [appKeys])
  have h5 := h "VITE_BUILD_ENV_CODE" (by simp [appKeys])
  have h6 := h "VITE_BUILD_WORKFLOW_NAME" (by simp [appKeys])
  have h7 := h "VITE_BUILD_WORKFLOW_RUN_NUMBER" (by simp [appKeys])
  have h8 := h "VITE_BUILD_WORKFLOW_RUN_ATTEMPT" (by simp [appKeys])
  have h9 := h "VITE_BASE_URL_API" (by simp [appKeys])
  have h10 := h "VITE_TOAST_AUTO_DISMISS_MILLIS" (by simp [appKeys])
  simp only [App.parseConfig, App.allIssues, App.rDate, App.rTime, App.rTs, App.rSha,
    App.rEnvCode, App.rWfName, App.rRunNum, App.rRunAtt, App.rBaseUrl, App.rToast,
    h1, h2, h3, h4, h5, h6, h7, h8, h9, h10]

/-- The infrastructure parse depends only on the values the environment holds
at the sixteen schema keys. -/
theorem infra_parse_ext (e1 e2 : List (String × String))
    (h : ∀ k ∈ infraKeys, envLookup e1 k = envLookup e2 k) :
    Infra.schemaParse e1 = Infra.schemaParse e2 := by
  have h1 := h "CDK_APP_NAME" (by simp [infraKeys])
  have h2 := h "CDK_ENV" (by simp [infraKeys])
  have h3 := h "CDK_ACCOUNT" (by simp [infraKeys])
  have h4 := h "CDK_REGION" (by simp [infraKeys])
  have h5 := h "CDK_OU" (by simp [infraKeys])
  have h6 := h "CDK_OWNER" (by simp [infraKeys])
  have h7 := h "CDK_ASSET_PATH" (by simp [infraKeys])
  have h8 := h "CDK_DOMAIN_NAME" (by simp [infraKeys])
  have h9 := h "CDK_CERTIFICATE_ARN" (by simp [infraKeys])
  have h10 := h "CDK_HOSTED_ZONE_ID" (by simp [infraKeys])
  have h11 := h "CDK_HOSTED_ZONE_NAME" (by simp [infraKeys])
  have h12 := h "CDK_STORYBOOK_ASSET_PATH" (by simp [infraKeys])
  have h13 := h "CDK_STORYBOOK_DOMAIN_NAME" (by simp [infraKeys])
  have h14 := h "CDK_STORYBOOK_CERTIFICATE_ARN" (by simp [infraKeys])
  have h15 := h "CDK_STORYBOOK_HOSTED_ZONE_ID" (by simp [infraKeys])
  have h16 := h "CDK_STORYBOOK_HOSTED_ZONE_NAME" (by simp [infraKeys])
  simp only [Infra.schemaParse, h1, h2, h3, h4, h5, h6, h7, h8, h9, h10, h11, h12,
    h13, h14, h15, h16]

/-- A truthy optional string holds a nonempty string. -/
theorem truthy_getD (o : Option String) (h : Infra.truthy o = true) : o.getD "" ≠ "" := by
  cases o with
  | none => simp [Infra.truthy] at h
  | some s => simpa [Infra.truthy] using h

/-- Prepending a binding for a key never consulted leaves every lookup of the
consulted keys unchanged. -/
theorem envLookup_cons_ne {α : Type} (env : List (String × α)) (k k2 : String) (v : α)
    (hne : k ≠ k2) : envLookup ((k, v) :: env) k2 = envLookup env k2 := by
  have hb : (k == k2) = false := beq_eq_false_iff_ne.mpr hne
  simp [envLookup, List.find?, hb]

/-- Claim C2: parsing the raw infrastructure input whose only recognised key is
`CDK_ENV = "dev"` succeeds, and the validated configuration carries the app
name `react-starter`, OU and owner `unknown`, asset path `../dist`, storybook
asset path `../storybook-static`, with account, region, domain-name,
certificate-ARN and hosted-zone fields all absent. -/
theorem infra_parse_dev_defaults :
    Infra.schemaParse [("CDK_ENV", "dev")] =
      Except.ok
        { CDK_APP_NAME := "react-starter", CDK_ENV := Infra.CdkEnv.dev, CDK_ACCOUNT := none,
          CDK_REGION := none, CDK_OU := "unknown", CDK_OWNER := "unknown",
          CDK_ASSET_PATH := "../dist", CDK_DOMAIN_NAME := none, CDK_CERTIFICATE_ARN := none,
          CDK_HOSTED_ZONE_ID := none, CDK_HOSTED_ZONE_NAME := none,
          CDK_STORYBOOK_ASSET_PATH := "../storybook-static", CDK_STORYBOOK_DOMAIN_NAME := none,
          CDK_STORYBOOK_CERTIFICATE_ARN := none, CDK_STORYBOOK_HOSTED_ZONE_ID := none,
          CDK_STORYBOOK_HOSTED_ZONE_NAME := none } := rfl

/-- Claim C4: the environment resolver prefers the configuration's explicit
account and region over the platform defaults whenever the explicit value is
nonempty — per component, the first nonempty value wins left to right — and
with both explicit values nonempty the result is exactly the explicit pair. -/
theorem environment_explicit_wins (c : Infra.Config) (dA dR : Option String) (a r : String)
    (ha : c.CDK_ACCOUNT = some a) (ha0 : a ≠ "") (hr : c.CDK_REGION = some r) (hr0 : r ≠ "") :
    Infra.jsOr c.CDK_ACCOUNT dA = some a ∧ Infra.jsOr c.CDK_REGION dR = some r ∧
    Infra.getEnvironmentConfig c dA dR = some ⟨a, r⟩ := by
  have h1 : Infra.jsOr c.CDK_ACCOUNT dA = some a := by simp [Infra.jsOr, ha, ha0]
  have h2 : Infra.jsOr c.CDK_REGION dR = some r := by simp [Infra.jsOr, hr, hr0]
  have ta : Infra.truthy (some a) = true := by simp [Infra.truthy, ha0]
  have tr : Infra.truthy (some r) = true := by simp [Infra.truthy, hr0]
  refine ⟨h1, h2, ?_⟩
  simp [Infra.getEnvironmentConfig, h1, h2, ta, tr]

/-- Witness for C4 at the values named by the specification: explicit account
`123456789012` and region `us-west-2` win over platform defaults
`111111111111` and `us-east-1`. -/
theorem environment_explicit_wins_witness :
    Infra.getEnvironmentConfig explicitConfig (some "111111111111") (some "us-east-1") =
      some ⟨"123456789012", "us-west-2"⟩ :=
  (environment_explicit_wins explicitConfig (some "111111111111") (some "us-east-1")
    "123456789012" "us-west-2" rfl (by decide) rfl (by decide)).2.2

/-- Claim C5: after the explicit-over-default substitution, the resolver
returns absent whenever either component is empty or absent, returns the full
pair when both are nonempty, and never returns a pair with an empty
component. -/
theorem environment_all_or_nothing (c : Infra.Config) (dA dR : Option String) :
    (Infra.truthy (Infra.jsOr c.CDK_ACCOUNT dA) = false ∨
        Infra.truthy (Infra.jsOr c.CDK_REGION dR) = false →
      Infra.getEnvironmentConfig c dA dR = none) ∧
    (Infra.truthy (Infra.jsOr c.CDK_ACCOUNT dA) = true →
      Infra.truthy (Infra.jsOr c.CDK_REGION dR) = true →
      Infra.getEnvironmentConfig c dA dR =
        some ⟨(Infra.jsOr c.CDK_ACCOUNT dA).getD "", (Infra.jsOr c.CDK_REGION dR).getD ""⟩) ∧
    (∀ p : Infra.EnvConfig, Infra.getEnvironmentConfig c dA dR = some p →
      p.account ≠ "" ∧ p.region ≠ "") := by
  refine ⟨?_, ?_, ?_⟩
  · intro h
    rcases h with h | h <;> simp [Infra.getEnvironmentConfig, h]
  · intro h1 h2
    simp [Infra.getEnvironmentConfig, h1, h2]
  · intro p hp
    simp only [Infra.getEnvironmentConfig] at hp
    split at hp
    · next hcond =>
      simp only [Bool.and_eq_true] at hcond
      obtain ⟨hA, hR⟩ := hcond
      cases hp
      exact ⟨truthy_getD _ hA, truthy_getD _ hR⟩
    · simp at hp

/-- Witness for C5: with no explicit region and no platform defaults the
resolver returns absent. -/
theorem environment_all_or_nothing_witness :
    Infra.getEnvironmentConfig devConfig none none = none :=
  (environment_all_or_nothing devConfig none none).1 (Or.inl (by decide))

/-- Claim C6: tag derivation is total by construction, its output has exactly
the keys `App`, `Env`, `OU`, `Owner` in that order, and every value is a
verbatim copy of the corresponding configuration field. -/
theorem tags_exact_and_verbatim (c : Infra.Config) :
    Infra.getTags c =
      [("App", c.CDK_APP_NAME), ("Env", c.CDK_ENV.code), ("OU", c.CDK_OU),
        ("Owner", c.CDK_OWNER)] ∧
    (Infra.getTags c).map Prod.fst = ["App", "Env", "OU", "Owner"] ∧
    envLookup (Infra.getTags c) "App" = some c.CDK_APP_NAME ∧
    envLookup (Infra.getTags c) "Env" = some c.CDK_ENV.code ∧
    envLookup (Infra.getTags c) "OU" = some c.CDK_OU ∧
    envLookup (Infra.getTags c) "Owner" = some c.CDK_OWNER :=
  ⟨rfl, rfl, rfl, rfl, rfl, rfl⟩

/-- When the `CDK_ENV` enum validates, the infrastructure object parse returns
the assembled record. -/
theorem infra_parse_ok_of (env : List (String × String)) (e : Infra.CdkEnv)
    (hp : Infra.parseCdkEnv (envLookup env "CDK_ENV") = Except.ok e) :
    Infra.schemaParse env =
      Except.ok
        { CDK_APP_NAME := (envLookup env "CDK_APP_NAME").getD "react-starter"
          CDK_ENV := e
          CDK_ACCOUNT := envLookup env "CDK_ACCOUNT"
          CDK_REGION := envLookup env "CDK_REGION"
          CDK_OU := (envLookup env "CDK_OU").getD "unknown"
          CDK_OWNER := (envLookup env "CDK_OWNER").getD "unknown"
          CDK_ASSET_PATH := (envLookup env "CDK_ASSET_PATH").getD "../dist"
          CDK_DOMAIN_NAME := envLookup env "CDK_DOMAIN_NAME"
          CDK_CERTIFICATE_ARN := envLookup env "CDK_CERTIFICATE_ARN"
          CDK_HOSTED_ZONE_ID := envLookup env "CDK_HOSTED_ZONE_ID"
          CDK_HOSTED_ZONE_NAME := envLookup env "CDK_HOSTED_ZONE_NAME"
          CDK_STORYBOOK_ASSET_PATH := (envLookup env "CDK_STORYBOOK_ASSET_PATH").getD "../storybook-static"
          CDK_STORYBOOK_DOMAIN_NAME := envLookup env "CDK_STORYBOOK_DOMAIN_NAME"
          CDK_STORYBOOK_CERTIFICATE_ARN := envLookup env "CDK_STORYBOOK_CERTIFICATE_ARN"
          CDK_STORYBOOK_HOSTED_ZONE_ID := envLookup env "CDK_STORYBOOK_HOSTED_ZONE_ID"
          CDK_STORYBOOK_HOSTED_ZONE_NAME := envLookup env "CDK_STORYBOOK_HOSTED_ZONE_NAME" } := by
  simp only [Infra.schemaParse, hp]

/-- When no field failed, the application object parse returns the assembled
record. -/
theorem app_parse_ok (env : List (String × App.Value)) (h : App.allIssues env = []) :
    App.parseConfig env =
      Except.ok
        { VITE_BUILD_DATE := okD "" (App.rDate env)
          VITE_BUILD_TIME := okD "" (App.rTime env)
          VITE_BUILD_TS := okD "" (App.rTs env)
          VITE_BUILD_COMMIT_SHA := okD "" (App.rSha env)
          VITE_BUILD_ENV_CODE := okD "" (App.rEnvCode env)
          VITE_BUILD_WORKFLOW_NAME := okD "" (App.rWfName env)
          VITE_BUILD_WORKFLOW_RUN_NUMBER := okD 0 (App.rRunNum env)
          VITE_BUILD_WORKFLOW_RUN_ATTEMPT := okD 0 (App.rRunAtt env)
          VITE_BASE_URL_API := okD "" (App.rBaseUrl env)
          VITE_TOAST_AUTO_DISMISS_MILLIS := okD 0 (App.rToast env) } := by
  unfold App.parseConfig
  rw [if_pos h]

/-- When some field failed, the application object parse returns the full
accumulated issue list. -/
theorem app_parse_err (env : List (String × App.Value)) (h : ¬App.allIssues env = []) :
    App.parseConfig env = Except.error (App.allIssues env) := by
  unfold App.parseConfig
  rw [if_neg h]

/-- Claim C1: a single parse invocation either succeeds with a typed
configuration carrying a value for every schema field, or fails with the full
accumulated issue list — nonempty, containing every field's failures rather
than stopping at the first failing field — and no partial configuration is
ever produced on failure. Stated for the application parser, where several
fields can fail independently, and for the infrastructure parser. -/
theorem parse_all_or_nothing :
    (∀ env : List (String × App.Value),
      (App.allIssues env = [] ∧ ∃ c, App.parseConfig env = Except.ok c) ∨
      (App.allIssues env ≠ [] ∧ App.parseConfig env = Except.error (App.allIssues env) ∧
        issuesOf (App.rDate env) ⊆ App.allIssues env ∧
        issuesOf (App.rTime env) ⊆ App.allIssues env ∧
        issuesOf (App.rTs env) ⊆ App.allIssues env ∧
        issuesOf (App.rSha env) ⊆ App.allIssues env ∧
        issuesOf (App.rEnvCode env) ⊆ App.allIssues env ∧
        issuesOf (App.rWfName env) ⊆ App.allIssues env ∧
        issuesOf (App.rRunNum env) ⊆ App.allIssues env ∧
        issuesOf (App.rRunAtt env) ⊆ App.allIssues env ∧
        issuesOf (App.rBaseUrl env) ⊆ App.allIssues env ∧
        issuesOf (App.rToast env) ⊆ App.allIssues env ∧
        ∀ c, App.parseConfig env ≠ Except.ok c)) ∧
    (∀ env : List (String × String),
      (∃ c, Infra.schemaParse env = Except.ok c) ∨
      ∃ i, Infra.schemaParse env = Except.error [i]) := by
  constructor
  · intro env
    by_cases h : App.allIssues env = []
    · exact Or.inl ⟨h, ⟨_, app_parse_ok env h⟩⟩
    · have hperr : App.parseConfig env = Except.error (App.allIssues env) :=
        app_parse_err env h
      refine Or.inr ⟨h, hperr, ?_, ?_, ?_, ?_, ?_, ?_, ?_, ?_, ?_, ?_, ?_⟩
      all_goals first
        | (intro c hc
           rw [hperr] at hc
           exact Except.noConfusion hc)
        | (intro i hi
           simp [App.allIssues, List.mem_append, hi])
  · intro env
    cases hp : Infra.parseCdkEnv (envLookup env "CDK_ENV") with
    | error i => exact Or.inr ⟨i, by simp [Infra.schemaParse, hp]⟩
    | ok e => exact Or.inl ⟨_, infra_parse_ok_of env e hp⟩

/-- Witness for C1: on the empty environment the application parse fails with
the nonempty accumulated issue list. -/
theorem parse_all_or_nothing_witness :
    App.parseConfig ([] : List (String × App.Value)) = Except.error (App.allIssues []) ∧
    App.allIssues ([] : List (String × App.Value)) ≠ [] := by
  rcases parse_all_or_nothing.1 [] with ⟨h0, _⟩ | ⟨h1, h2, _⟩
  · exact absurd h0 (by decide)
  · exact ⟨h2, h1⟩

/-- Claim C3: whenever `CDK_ENV` is absent or holds any value other than
`dev`, `qa`, `prd`, the infrastructure parse fails with the issue for that
field, and the surfaced message contains `ENV` and names the allowed values
`dev, qa, prd`. -/
theorem infra_env_enum_rejected (env : List (String × String))
    (h : ∀ s, envLookup env "CDK_ENV" = some s → s ≠ "dev" ∧ s ≠ "qa" ∧ s ≠ "prd") :
    Infra.schemaParse env = Except.error [Infra.cdkEnvIssue] ∧
    Infra.getConfig env = Except.error (Infra.errorMessage [Infra.cdkEnvIssue]) ∧
    containsSub "ENV" (Infra.errorMessage [Infra.cdkEnvIssue]) = true ∧
    containsSub "dev, qa, prd" (Infra.errorMessage [Infra.cdkEnvIssue]) = true := by
  have hp : Infra.parseCdkEnv (envLookup env "CDK_ENV") = Except.error Infra.cdkEnvIssue := by
    cases hl : envLookup env "CDK_ENV" with
    | none => rfl
    | some s =>
      obtain ⟨h1, h2, h3⟩ := h s hl
      simp [Infra.parseCdkEnv, h1, h2, h3]
  have hs : Infra.schemaParse env = Except.error [Infra.cdkEnvIssue] := by
    simp [Infra.schemaParse, hp]
  exact ⟨hs, by simp [Infra.getConfig, hs], by decide, by decide⟩

/-- Witness for C3 at the specification's failing value `invalid`. -/
theorem infra_env_enum_rejected_witness :
    Infra.getConfig [("CDK_ENV", "invalid")] =
      Except.error (Infra.errorMessage [Infra.cdkEnvIssue]) :=
  (infra_env_enum_rejected [("CDK_ENV", "invalid")] (by
    intro s hs
    have h0 : envLookup [("CDK_ENV", "invalid")] "CDK_ENV" = some "invalid" := rfl
    rw [h0] at hs
    injection hs with h1
    subst h1
    decide)).2.1

/-- Claim C7, counterexample: the infrastructure parse failure for
`CDK_ENV = "invalid"` is surfaced with the message below, which does not start
with the claimed literal prefix `configuration validation failed: ` — the
actual infrastructure prefix is `CDK configuration validation failed: `, and
the application parser uses `Invalid configuration. Details: `. -/
theorem error_message_shape_counterexample :
    Infra.getConfig [("CDK_ENV", "invalid")] =
      Except.error
        "CDK configuration validation failed: CDK_ENV: CDK_ENV must be one of: dev, qa, prd" ∧
    strStarts "configuration validation failed: "
        "CDK configuration validation failed: CDK_ENV: CDK_ENV must be one of: dev, qa, prd" =
      false :=
  ⟨rfl, by decide⟩

/-- Claim C7 as amended: whenever parsing fails, the surfaced message is the
parser's own literal prefix — `CDK configuration validation failed: ` for the
infrastructure parser, `Invalid configuration. Details: ` for the application
parser — followed by the comma-joined (respectively semicolon-joined) list of
`field: message` entries, one per issue. -/
theorem error_message_shape :
    (∀ (env : List (String × String)) (m : String),
      Infra.getConfig env = Except.error m →
      ∃ issues, Infra.schemaParse env = Except.error issues ∧
        m = "CDK configuration validation failed: " ++ joinWith ", " (issues.map fmtIssue)) ∧
    (∀ (env : List (String × App.Value)) (m : String),
      App.parseConfigE env = Except.error m →
      ∃ issues, App.parseConfig env = Except.error issues ∧
        m = "Invalid configuration. Details: " ++ joinWith "; " (issues.map fmtIssue)) := by
  constructor
  · intro env m hm
    cases hs : Infra.schemaParse env with
    | ok c => simp [Infra.getConfig, hs] at hm
    | error issues =>
      refine ⟨issues, rfl, ?_⟩
      simp only [Infra.getConfig, hs, Except.error.injEq] at hm
      rw [← hm]
      rfl
  · intro env m hm
    cases hs : App.parseConfig env with
    | ok c => simp [App.parseConfigE, hs] at hm
    | error issues =>
      refine ⟨issues, rfl, ?_⟩
      simp only [App.parseConfigE, hs, Except.error.injEq] at hm
      rw [← hm]
      rfl

/-- Witness for the amended C7 at the failing input `CDK_ENV = "invalid"`. -/
theorem error_message_shape_witness :
    ∃ issues, Infra.schemaParse [("CDK_ENV", "invalid")] = Except.error issues ∧
      "CDK configuration validation failed: CDK_ENV: CDK_ENV must be one of: dev, qa, prd" =
        "CDK configuration validation failed: " ++ joinWith ", " (issues.map fmtIssue) :=
  error_message_shape.1 [("CDK_ENV", "invalid")]
    "CDK configuration validation failed: CDK_ENV: CDK_ENV must be one of: dev, qa, prd" rfl

/-- Claim C8 (code bug): the application schema declares its numeric fields
with `number().int().nonnegative()` and no coercion, so the string values that
`import.meta.env` always supplies — here the repository's own coercion-test
input with `VITE_BUILD_WORKFLOW_RUN_NUMBER = "99"` — are rejected as
`expected number, received string` instead of being parsed as base-10
integers; the same input with genuine numbers parses to 99, zero is accepted
and a negative number is rejected, isolating the missing coercion as the
defect. -/
theorem numeric_strings_rejected :
    App.parseConfig coercionTestEnv =
      Except.error
        [⟨"VITE_BUILD_WORKFLOW_RUN_NUMBER", "Invalid input: expected number, received string"⟩,
         ⟨"VITE_BUILD_WORKFLOW_RUN_ATTEMPT", "Invalid input: expected number, received string"⟩,
         ⟨"VITE_TOAST_AUTO_DISMISS_MILLIS", "Invalid input: expected number, received string"⟩] ∧
    App.parseConfig numericTestEnv =
      Except.ok
        { VITE_BUILD_DATE := "2026-02-11", VITE_BUILD_TIME := "14:30:00",
          VITE_BUILD_TS := "2026-02-11T14:30:00Z", VITE_BUILD_COMMIT_SHA := "abc123def456",
          VITE_BUILD_ENV_CODE := "dev", VITE_BUILD_WORKFLOW_NAME := "CI/CD Pipeline",
          VITE_BUILD_WORKFLOW_RUN_NUMBER := 99, VITE_BUILD_WORKFLOW_RUN_ATTEMPT := 3,
          VITE_BASE_URL_API := "https://api.example.com",
          VITE_TOAST_AUTO_DISMISS_MILLIS := 3000 } ∧
    App.vNonnegInt "VITE_BUILD_WORKFLOW_RUN_NUMBER" (some (App.Value.num 0 false)) =
      Except.ok 0 ∧
    App.vNonnegInt "VITE_BUILD_WORKFLOW_RUN_NUMBER" (some (App.Value.num (-1) false)) =
      Except.error
        [⟨"VITE_BUILD_WORKFLOW_RUN_NUMBER", "Too small: expected number to be >=0"⟩] :=
  ⟨rfl, rfl, rfl, rfl⟩

/-- Claim C9: parsing is a pure, deterministic function of the raw environment
and the (fixed) schema — the result depends only on the environment's values
at the schema keys, and parsing the identical input twice yields structurally
equal results. -/
theorem parse_pure_deterministic :
    (∀ e1 e2 : List (String × App.Value),
      (∀ k ∈ appKeys, envLookup e1 k = envLookup e2 k) →
      App.parseConfig e1 = App.parseConfig e2) ∧
    (∀ e1 e2 : List (String × String),
      (∀ k ∈ infraKeys, envLookup e1 k = envLookup e2 k) →
      Infra.schemaParse e1 = Infra.schemaParse e2) ∧
    (∀ env : List (String × App.Value), App.parseConfig env = App.parseConfig env) ∧
    (∀ env : List (String × String), Infra.schemaParse env = Infra.schemaParse env) :=
  ⟨app_parse_ext, infra_parse_ext, fun _ => rfl, fun _ => rfl⟩

/-- Witness for C9: two environments that agree on every schema key — they
differ only at an unrecognised key — parse identically. -/
theorem parse_pure_deterministic_witness :
    App.parseConfig [("SOME_OTHER_KEY", App.Value.str "x")] =
      App.parseConfig ([] : List (String × App.Value)) :=
  parse_pure_deterministic.1 [("SOME_OTHER_KEY", App.Value.str "x")] [] (by decide)

/-- Claim C10: a binding for any key outside the sixteen schema-declared keys
never changes the infrastructure parse result — it is silently dropped, never
copied into the validated configuration (whose type carries exactly the
sixteen schema fields) and never a cause of failure. -/
theorem unrecognized_keys_ignored (env : List (String × String)) (k v : String)
    (hk : k ∉ infraKeys) :
    Infra.schemaParse ((k, v) :: env) = Infra.schemaParse env ∧
    (∀ c, Infra.schemaParse env = Except.ok c →
      Infra.schemaParse ((k, v) :: env) = Except.ok c) := by
  have he : Infra.schemaParse ((k, v) :: env) = Infra.schemaParse env := by
    refine infra_parse_ext _ _ ?_
    intro k2 hk2
    refine envLookup_cons_ne env k k2 v ?_
    intro he2
    rw [he2] at hk
    exact hk hk2
  exact ⟨he, fun c hc => he.trans hc⟩

/-- Witness for C10: an unrecognised key on top of the minimal dev environment
leaves the successful parse unchanged. -/
theorem unrecognized_keys_ignored_witness :
    Infra.schemaParse [("SOME_OTHER_KEY", "x"), ("CDK_ENV", "dev")] =
      Infra.schemaParse [("CDK_ENV", "dev")] :=
  (unrecognized_keys_ignored [("CDK_ENV", "dev")] "SOME_OTHER_KEY" "x" (by decide)).1
